import Mathlib

/-!
Verification of the data-access adapters in nipype/interfaces/io.py:
DataSource, DataSink, DataGrabber and FreeSurferSource.  The Python code is
shallowly embedded: filesystem globbing is an explicit function parameter
from glob patterns to match lists, the environment is an explicit optional
string, and Python exceptions become Except values.
-/

namespace NipypeIO

/-- Model of os.path.join for two components: an absolute second component
replaces the first; otherwise the components are joined with a single slash
(no separator added after an empty or slash-terminated first component). -/
def osPathJoin (a b : String) : String :=
  if b.data.head? = some '/' then b
  else if a = "" then b
  else if a.data.getLast? = some '/' then a ++ b
  else a ++ "/" ++ b

/-- Model of os.path.abspath relative to an explicit current working
directory; path normalization (collapsing dots and repeated slashes) is not
modelled, which is exact for already-normalized inputs. -/
def pyAbspath (cwd p : String) : String := osPathJoin cwd p

/-- Python truthiness of an optional string input: None and the empty string
are falsy, every other string is truthy. -/
def truthyStr : Option String → Bool
  | none => false
  | some s => !s.isEmpty

/-- Value stored for one output field: either a single path or a sequence of
paths, mirroring the spec data model (sequence of paths | single path). -/
inductive Resolved where
  | single : String → Resolved
  | seq : List String → Resolved
deriving DecidableEq

/-- Modelled from the spec: nipype.utils.filemanip.list_to_filename is not
under src/.  The spec data model states result values are an ordered
sequence of file paths or a single path, so a singleton match list collapses
to the single path and any other list stays a sequence. -/
def list_to_filename : List String → Resolved
  | [f] => Resolved.single f
  | fl => Resolved.seq fl

/-! FreeSurferSource: the class-level dirmap table of io.py lines 348-372,
with the two post-hoc assignments appended as the last two entries. -/

/-- Semantic-key to subdirectory table of FreeSurferSource, entry for entry
as written in the source, the two bracket assignments last. -/
def dirmap : List (String × String) :=
  [("T1", "mri"), ("aseg", "mri"), ("brain", "mri"), ("brainmask", "mri"),
   ("filled", "mri"), ("norm", "mri"), ("nu", "mri"), ("orig", "mri"),
   ("rawavg", "mri"), ("ribbon", "mri"), ("wm", "mri"), ("wmparc", "mri"),
   ("curv", "surf"), ("inflated", "surf"), ("pial", "surf"),
   ("smoothwm", "surf"), ("sphere", "surf"), ("sulc", "surf"),
   ("thickness", "surf"), ("volume", "surf"), ("white", "surf"),
   ("label", "label"), ("annot", "label"),
   ("aparc+aseg", "mri"), ("sphere.reg", "surf")]

/-- Dictionary lookup into dirmap (keys are pairwise distinct, so first
match is the dictionary value). -/
def dirmapLookup (key : String) : Option String :=
  dirmap.lookup key

/-- Keys of the dirmap dictionary, in insertion order. -/
def fsKeys : List String := dirmap.map Prod.fst

/-- Glob prefix computed by FreeSurferSource._get_files, io.py lines
405-415: the hemisphere or star prefixes apply only inside the branch for
ribbon keys and surf/label directories. -/
def globpre (hemi : Option String) (key dirval : String) : String :=
  if key == "ribbon" || dirval == "surf" || dirval == "label" then
    let base :=
      if truthyStr hemi then hemi.getD "" ++ "."
      else if key == "ribbon" || key == "label" then "*"
      else "*h."
    if key == "annot" then base ++ "*" else base
  else ""

/-- Glob suffix computed by FreeSurferSource._get_files, io.py lines
402-404 and 416-417: ".mgz" for the mri directory, reset to the empty
string for the annot and label keys. -/
def globsuffix (key dirval : String) : String :=
  if key == "annot" || key == "label" then ""
  else if dirval == "mri" then ".mgz"
  else ""

/-- Glob pattern built by FreeSurferSource._get_files, io.py lines 418-419:
join(path, dirval) then join with prefix ++ key ++ suffix; none when the key
is absent from dirmap (Python KeyError). -/
def fsPattern (hemi : Option String) (path key : String) : Option String :=
  match dirmapLookup key with
  | none => none
  | some dirval =>
      some (osPathJoin (osPathJoin path dirval)
              (globpre hemi key dirval ++ key ++ globsuffix key dirval))

/-! Spec-side definitions for the refinement claims about the table and the
glob fragments.  These follow the wording of the spec, to be compared with
the definitions above that embed the source. -/

/-- Key grouping exactly as the spec states it: mri, surf and label key
sets, none for any other key. -/
def specSubdir (key : String) : Option String :=
  if key ∈ ["T1", "aseg", "aparc+aseg", "brain", "brainmask", "filled",
            "norm", "nu", "orig", "rawavg", "ribbon", "wm", "wmparc"] then
    some "mri"
  else if key ∈ ["curv", "inflated", "pial", "smoothwm", "sphere",
                 "sphere.reg", "sulc", "thickness", "volume", "white"] then
    some "surf"
  else if key ∈ ["label", "annot"] then some "label"
  else none

/-- Suffix rule as the spec states it: ".mgz" for keys mapped to mri, empty
otherwise, with annot and label always empty. -/
def specSuffixRule (key subdir : String) : String :=
  if key == "annot" || key == "label" then ""
  else if subdir == "mri" then ".mgz"
  else ""

/-- The 25 semantic keys enumerated by the spec grouping. -/
def specKeys : List String :=
  ["T1", "aseg", "aparc+aseg", "brain", "brainmask", "filled", "norm", "nu",
   "orig", "rawavg", "ribbon", "wm", "wmparc",
   "curv", "inflated", "pial", "smoothwm", "sphere", "sphere.reg", "sulc",
   "thickness", "volume", "white", "label", "annot"]

/-- C1: every key of the ConventionTable is mapped to exactly the
subdirectory of the spec grouping, the computed suffix follows the spec
suffix rule (".mgz" exactly for mri keys, empty otherwise, annot and label
always empty), and every key of the spec grouping is in the table. -/
theorem fs_convention_table_matches_spec :
    (∀ key ∈ fsKeys, dirmapLookup key = specSubdir key
        ∧ globsuffix key ((dirmapLookup key).getD "")
            = specSuffixRule key ((specSubdir key).getD ""))
    ∧ (∀ key ∈ specKeys, key ∈ fsKeys) := by
  decide

/-- C1 witness at the key T1. -/
theorem fs_convention_table_matches_spec_witness :
    dirmapLookup "T1" = specSubdir "T1" :=
  (fs_convention_table_matches_spec.1 "T1" (by decide)).1

/-- C3 counterexample: with subjects_dir /data and subject s1, the pattern
for key annot with no hemisphere is /data/s1/label/*h.*annot and not the
pattern /data/s1/label/**annot claimed by the spec: the star override never
applies to annot, only the star append does. -/
theorem fs_pattern_annot_counterexample :
    fsPattern none (osPathJoin "/data" "s1") "annot"
      = some "/data/s1/label/*h.*annot"
    ∧ fsPattern none (osPathJoin "/data" "s1") "annot"
      ≠ some "/data/s1/label/**annot" := by
  decide

/-- C3 amended: the ribbon and curv patterns are as the claim states them,
and the annot pattern with no hemisphere is /data/s1/label/*h.*annot. -/
theorem fs_pattern_examples :
    fsPattern none (osPathJoin "/data" "s1") "ribbon"
      = some "/data/s1/mri/*ribbon.mgz"
    ∧ fsPattern (some "lh") (osPathJoin "/data" "s1") "curv"
      = some "/data/s1/surf/lh.curv"
    ∧ fsPattern none (osPathJoin "/data" "s1") "annot"
      = some "/data/s1/label/*h.*annot" := by
  decide

/-- C2 claim rule, as the claim words it: a supplied hemisphere sets the
prefix for every key; otherwise ribbon keys and surf/label directories get
the star forms; annot appends a star to whatever was computed. -/
def specPreClaim (hemi : Option String) (key subdir : String) : String :=
  let base :=
    if truthyStr hemi then hemi.getD "" ++ "."
    else if key == "ribbon" || subdir == "surf" || subdir == "label" then
      if key == "ribbon" || key == "label" then "*" else "*h."
    else ""
  if key == "annot" then base ++ "*" else base

/-- C2 amended rule: identical to the claim rule except that the supplied
hemisphere, and the star append for annot, apply only for ribbon keys and
surf/label directories; every other key keeps the empty prefix even when a
hemisphere is given. -/
def specPreAmended (hemi : Option String) (key subdir : String) : String :=
  let branch := key == "ribbon" || subdir == "surf" || subdir == "label"
  let base :=
    if branch && truthyStr hemi then hemi.getD "" ++ "."
    else if branch then
      if key == "ribbon" || key == "label" then "*" else "*h."
    else ""
  if key == "annot" && branch then base ++ "*" else base

/-- C2 counterexample: for the mri key T1 with hemisphere lh the code
computes the empty prefix while the claim rule computes "lh.". -/
theorem fs_glob_pre_counterexample :
    globpre (some "lh") "T1" "mri" = ""
    ∧ specPreClaim (some "lh") "T1" "mri" = "lh."
    ∧ dirmapLookup "T1" = some "mri" := by
  decide

/-- C2 amended: for every key, directory and optional hemisphere, the
prefix computed by the code equals the amended spec rule, in which the
hemisphere prefix applies only to ribbon keys and surf/label directories. -/
theorem fs_glob_pre_amended (hemi : Option String) (key dirval : String) :
    globpre hemi key dirval = specPreAmended hemi key dirval := by
  unfold globpre specPreAmended
  cases hb : (key == "ribbon" || dirval == "surf" || dirval == "label") <;>
    cases ht : truthyStr hemi <;>
      simp [hb, ht]

/-- FreeSurferSource._get_files, io.py lines 400-424: KeyError when the key
is missing from dirmap, otherwise glob the pattern and store either the
matches or the None sentinel when nothing matched. -/
def getFilesE (fsGlob : String → List String) (hemi : Option String)
    (path key : String) : Except String (Option Resolved) :=
  match fsPattern hemi path key with
  | none => Except.error "KeyError"
  | some pat =>
      let outfiles := fsGlob pat
      Except.ok (if outfiles.isEmpty then none else some (list_to_filename outfiles))

/-- Value stored by _get_files for a key present in dirmap: the None
sentinel when the glob matched nothing, otherwise the matches. -/
def fsResolveKey (fsGlob : String → List String) (hemi : Option String)
    (path key : String) : Option Resolved :=
  match fsPattern hemi path key with
  | none => none
  | some pat =>
      if (fsGlob pat).isEmpty then none else some (list_to_filename (fsGlob pat))

/-- Inputs of FreeSurferSource, io.py lines 394-398; subject_id is taken as
a plain string (the interface requires it for path construction). -/
structure FSInputs where
  subjects_dir : Option String
  subject_id : String
  hemi : Option String

/-- Error message of io.py lines 469-470. -/
def subjectsDirErrMsg : String :=
  "SUBJECTS_DIR variable must be set or provided as input to FreeSurferSource."

/-- Resolution of subjects_dir in aggregate_outputs, io.py lines 465-470:
the explicit input when truthy, else the SUBJECTS_DIR environment value
when truthy, else unavailable. -/
def resolveSubjectsDir (explicit envvar : Option String) : Option String :=
  if truthyStr explicit then explicit
  else if truthyStr envvar then envvar
  else none

/-- Per-key loop of aggregate_outputs, io.py lines 473-475: one _get_files
call per output key, any exception propagating. -/
def aggLoop (fsGlob : String → List String) (hemi : Option String)
    (path : String) : List String → Except String (List (String × Option Resolved))
  | [] => Except.ok []
  | k :: ks =>
      match getFilesE fsGlob hemi path k with
      | Except.error e => Except.error e
      | Except.ok v =>
          match aggLoop fsGlob hemi path ks with
          | Except.error e => Except.error e
          | Except.ok rest => Except.ok ((k, v) :: rest)

/-- FreeSurferSource.aggregate_outputs, io.py lines 464-476: resolve
subjects_dir (explicit input, then environment), fail if neither is truthy,
otherwise resolve every dirmap key under join(subjects_dir, subject_id). -/
def fsAggregate (fsGlob : String → List String) (inp : FSInputs)
    (envvar : Option String) : Except String (List (String × Option Resolved)) :=
  match resolveSubjectsDir inp.subjects_dir envvar with
  | none => Except.error subjectsDirErrMsg
  | some sd => aggLoop fsGlob inp.hemi (osPathJoin sd inp.subject_id) fsKeys

theorem truthy_isSome (o : Option String) (h : truthyStr o = true) :
    ∃ s, o = some s := by
  cases o with
  | none => simp [truthyStr] at h
  | some s => exact ⟨s, rfl⟩

theorem getFilesE_ok (fsGlob : String → List String) (hemi : Option String)
    (path key : String) (h : (dirmapLookup key).isSome = true) :
    getFilesE fsGlob hemi path key
      = Except.ok (fsResolveKey fsGlob hemi path key) := by
  unfold getFilesE fsResolveKey fsPattern
  cases hd : dirmapLookup key with
  | none => rw [hd] at h; exact absurd h (by simp)
  | some d => simp

theorem aggLoop_ok (fsGlob : String → List String) (hemi : Option String)
    (path : String) (ks : List String)
    (h : ∀ k ∈ ks, (dirmapLookup k).isSome = true) :
    aggLoop fsGlob hemi path ks
      = Except.ok (ks.map (fun k => (k, fsResolveKey fsGlob hemi path k))) := by
  induction ks with
  | nil => rfl
  | cons k ks ih =>
      have hk := h k (by simp)
      have hrest := ih (fun x hx => h x (by simp [hx]))
      simp [aggLoop, getFilesE_ok fsGlob hemi path k hk, hrest]

theorem lookup_map_self {α β : Type} [BEq α] [LawfulBEq α] (f : α → β)
    (ks : List α) (k : α) (h : k ∈ ks) :
    (ks.map (fun x => (x, f x))).lookup k = some (f k) := by
  induction ks with
  | nil => simp at h
  | cons a ks ih =>
      by_cases hak : k = a
      · subst hak; simp [List.lookup]
      · rcases List.mem_cons.mp h with h1 | h2
        · exact absurd h1 hak
        · simp [List.lookup, beq_false_of_ne hak, ih h2]

/-- C4: aggregation fails only when subjects_dir is unavailable; whenever it
is available the result is ok and holds one entry per dirmap key, and a key
whose glob pattern matched no files is stored as the None sentinel. -/
theorem fs_aggregate_sparse_tolerant (fsGlob : String → List String)
    (inp : FSInputs) (envvar : Option String) :
    (resolveSubjectsDir inp.subjects_dir envvar = none →
        fsAggregate fsGlob inp envvar = Except.error subjectsDirErrMsg)
    ∧ (∀ sd, resolveSubjectsDir inp.subjects_dir envvar = some sd →
        fsAggregate fsGlob inp envvar
          = Except.ok (fsKeys.map (fun k =>
              (k, fsResolveKey fsGlob inp.hemi (osPathJoin sd inp.subject_id) k))))
    ∧ (∀ sd pat key, resolveSubjectsDir inp.subjects_dir envvar = some sd →
        key ∈ fsKeys →
        fsPattern inp.hemi (osPathJoin sd inp.subject_id) key = some pat →
        fsGlob pat = [] →
        ∃ out, fsAggregate fsGlob inp envvar = Except.ok out
          ∧ out.lookup key = some none) := by
  refine ⟨?_, ?_, ?_⟩
  · intro h; simp [fsAggregate, h]
  · intro sd h
    simp [fsAggregate, h,
      aggLoop_ok fsGlob inp.hemi (osPathJoin sd inp.subject_id) fsKeys
        (by decide)]
  · intro sd pat key h hkey hpat hempty
    refine ⟨fsKeys.map (fun k =>
      (k, fsResolveKey fsGlob inp.hemi (osPathJoin sd inp.subject_id) k)), ?_, ?_⟩
    · simp [fsAggregate, h,
        aggLoop_ok fsGlob inp.hemi (osPathJoin sd inp.subject_id) fsKeys
          (by decide)]
    · rw [lookup_map_self _ fsKeys key hkey]
      simp [fsResolveKey, hpat, hempty]

/-- C4 witness: with no file matching any pattern and subjects_dir /d, the
aggregation succeeds with every key mapped to the None sentinel. -/
theorem fs_aggregate_sparse_tolerant_witness :
    fsAggregate (fun _ => []) (FSInputs.mk (some "/d") "s1" none) none
      = Except.ok (fsKeys.map (fun k =>
          (k, fsResolveKey (fun _ => []) none (osPathJoin "/d" "s1") k))) :=
  (fs_aggregate_sparse_tolerant (fun _ => [])
    (FSInputs.mk (some "/d") "s1" none) none).2.1 "/d" rfl

/-- C5: subjects_dir resolves to the explicit input when it is truthy, else
to the environment value when that is truthy; when neither is truthy the
aggregation fails with the configuration error, and when either is truthy
the aggregation does not fail. -/
theorem fs_subjects_dir_resolution (fsGlob : String → List String)
    (inp : FSInputs) (envvar : Option String) :
    (truthyStr inp.subjects_dir = true →
        resolveSubjectsDir inp.subjects_dir envvar = inp.subjects_dir)
    ∧ (truthyStr inp.subjects_dir = false → truthyStr envvar = true →
        resolveSubjectsDir inp.subjects_dir envvar = envvar)
    ∧ (truthyStr inp.subjects_dir = false → truthyStr envvar = false →
        fsAggregate fsGlob inp envvar = Except.error subjectsDirErrMsg)
    ∧ ((truthyStr inp.subjects_dir = true ∨ truthyStr envvar = true) →
        (fsAggregate fsGlob inp envvar).isOk = true) := by
  refine ⟨?_, ?_, ?_, ?_⟩
  · intro h; simp [resolveSubjectsDir, h]
  · intro h1 h2; simp [resolveSubjectsDir, h1, h2]
  · intro h1 h2; simp [fsAggregate, resolveSubjectsDir, h1, h2]
  · intro h
    have hsome : ∃ sd, resolveSubjectsDir inp.subjects_dir envvar = some sd := by
      unfold resolveSubjectsDir
      rcases h with h1 | h2
      · rcases truthy_isSome _ h1 with ⟨s, hs⟩
        rw [hs] at h1
        exact ⟨s, by simp [hs, h1]⟩
      · cases hb : truthyStr inp.subjects_dir with
        | true =>
            rcases truthy_isSome _ hb with ⟨s, hs⟩
            rw [hs] at hb
            exact ⟨s, by simp [hs, hb]⟩
        | false =>
            rcases truthy_isSome _ h2 with ⟨s, hs⟩
            rw [hs] at h2
            exact ⟨s, by simp [hb, hs, h2]⟩
    rcases hsome with ⟨sd, hsd⟩
    simp [fsAggregate, hsd,
      aggLoop_ok fsGlob inp.hemi (osPathJoin sd inp.subject_id) fsKeys
        (by decide), Except.isOk, Except.toBool]

/-- C5 witness: an explicit /sd input wins over the environment, and with
no explicit input a truthy environment value makes aggregation succeed. -/
theorem fs_subjects_dir_resolution_witness :
    resolveSubjectsDir (some "/sd") (some "/env") = some "/sd"
    ∧ (fsAggregate (fun _ => []) (FSInputs.mk none "s1" none)
        (some "/env")).isOk = true :=
  ⟨(fs_subjects_dir_resolution (fun _ => [])
      (FSInputs.mk (some "/sd") "s1" none) (some "/env")).1 rfl,
   (fs_subjects_dir_resolution (fun _ => [])
      (FSInputs.mk none "s1" none) (some "/env")).2.2.2 (Or.inr rfl)⟩

/-! DataGrabber: template formatting and argument collection, io.py lines
298-333.  Python percent-formatting is modelled on the two conversions the
interface documents (a string and a decimal placeholder), with the doubled
percent escape; an unsupported conversion character is a formatting error,
as in Python, and a decimal placeholder given a string argument raises the
Python conversion TypeError rather than rendering it. -/

/-- Python value that can appear as a template argument: a string or an
integer (the two kinds of arguments the interface documents). -/
inductive PyVal where
  | str : String → PyVal
  | int : Int → PyVal
deriving DecidableEq

/-- Python truthiness of a value: empty strings and zero are falsy. -/
def PyVal.truthy : PyVal → Bool
  | PyVal.str s => !s.isEmpty
  | PyVal.int n => n != 0

/-- Rendering of a value by a template placeholder. -/
def pyStr : PyVal → String
  | PyVal.str s => s
  | PyVal.int n => toString n

/-- Template token: a literal character, a consuming string placeholder
(percent-s), or a consuming decimal placeholder (percent-d). -/
inductive Tok where
  | lit : Char → Tok
  | phs : Tok
  | phd : Tok
deriving DecidableEq

/-- Whether a token is a consuming placeholder. -/
def Tok.isPh : Tok → Bool
  | Tok.lit _ => false
  | Tok.phs => true
  | Tok.phd => true

/-- Tokenization of a percent-format template: a doubled percent is a
literal percent, percent-s and percent-d are placeholders, any other
percent sequence is malformed (none). -/
def parseTemplate : List Char → Option (List Tok)
  | [] => some []
  | '%' :: c :: rest =>
      if c = '%' then (parseTemplate rest).map (fun ts => Tok.lit '%' :: ts)
      else if c = 's' then (parseTemplate rest).map (fun ts => Tok.phs :: ts)
      else if c = 'd' then (parseTemplate rest).map (fun ts => Tok.phd :: ts)
      else none
  | ['%'] => none
  | c :: rest => (parseTemplate rest).map (fun ts => Tok.lit c :: ts)

/-- Python message for surplus arguments after formatting. -/
def notAllConvertedMsg : String :=
  "not all arguments converted during string formatting"

/-- Python message for a placeholder left without an argument. -/
def notEnoughArgsMsg : String := "not enough arguments for format string"

/-- Python message for a decimal placeholder given a non-number. -/
def dFormatErrMsg : String := "%d format: a number is required, not str"

/-- Rendering of a token list against an argument list, with the Python
percent-operator errors: leftover arguments and missing arguments raise the
count errors, and a decimal placeholder raises the conversion TypeError
when its argument is a string rather than a number. -/
def renderToks : List Tok → List PyVal → Except String (List Char)
  | [], [] => Except.ok []
  | [], _ :: _ => Except.error notAllConvertedMsg
  | Tok.lit c :: ts, args => (renderToks ts args).map (fun r => c :: r)
  | Tok.phs :: _, [] => Except.error notEnoughArgsMsg
  | Tok.phd :: _, [] => Except.error notEnoughArgsMsg
  | Tok.phs :: ts, a :: args =>
      (renderToks ts args).map (fun r => (pyStr a).data ++ r)
  | Tok.phd :: ts, PyVal.int n :: args =>
      (renderToks ts args).map (fun r => (toString n).data ++ r)
  | Tok.phd :: _, PyVal.str _ :: _ => Except.error dFormatErrMsg

/-- Model of the Python percent operator applied to a template string and
an argument tuple. -/
def pyFormat (template : String) (args : List PyVal) : Except String String :=
  match parseTemplate template.data with
  | none => Except.error "unsupported format character"
  | some ts => (renderToks ts args).map (fun cs => String.mk cs)

/-- Number of consuming placeholders of a template, none if malformed. -/
def countPlaceholders (template : String) : Option Nat :=
  (parseTemplate template.data).map (fun ts => ts.countP Tok.isPh)

/-- Inputs of DataGrabber, io.py lines 298-302: the template, the optional
positional tuple, the optional list of named inputs, and the dynamic
attribute store that inputs.get reads named values from. -/
structure DGInputs where
  file_template : String
  template_argtuple : Option (List PyVal)
  template_argnames : Option (List String)
  named : String → Option PyVal

/-- Contribution of template_argtuple to the argument list, io.py lines
322-323: extended only when the tuple is truthy (non-None and nonempty). -/
def dgTupleArgs (inp : DGInputs) : List PyVal :=
  match inp.template_argtuple with
  | some ts => if ts.isEmpty then [] else ts
  | none => []

/-- Loop over template_argnames, io.py lines 324-328: look the name up in
the inputs and append the value only when it is truthy. -/
def dgArgsLoop (named : String → Option PyVal) :
    List PyVal → List String → List PyVal
  | acc, [] => acc
  | acc, n :: ns =>
      match named n with
      | some v =>
          if v.truthy then dgArgsLoop named (acc ++ [v]) ns
          else dgArgsLoop named acc ns
      | none => dgArgsLoop named acc ns

/-- Argument list assembled by DataGrabber.aggregate_outputs, io.py lines
321-328. -/
def dgArgs (inp : DGInputs) : List PyVal :=
  match inp.template_argnames with
  | some ns => dgArgsLoop inp.named (dgTupleArgs inp) ns
  | none => dgTupleArgs inp

/-- DataGrabber.aggregate_outputs, io.py lines 319-333: format the template
with the collected arguments when there are any, glob the result, and store
the match list. -/
def dgAggregate (fsGlob : String → List String) (inp : DGInputs) :
    Except String Resolved :=
  let args := dgArgs inp
  let tE : Except String String :=
    if args.isEmpty then Except.ok inp.file_template
    else pyFormat inp.file_template args
  tE.map (fun t => list_to_filename (fsGlob t))

theorem isOk_map {α β : Type} (f : α → β) (e : Except String α) :
    (e.map f).isOk = e.isOk := by
  cases e <;> rfl

theorem renderToks_ok_counts (ts : List Tok) (args : List PyVal)
    (h : (renderToks ts args).isOk = true) :
    ts.countP Tok.isPh = args.length := by
  induction ts generalizing args with
  | nil =>
      cases args with
      | nil => simp
      | cons a as => simp [renderToks, Except.isOk, Except.toBool] at h
  | cons t ts ih =>
      cases t with
      | lit c =>
          simp only [renderToks, isOk_map] at h
          simpa [List.countP_cons, Tok.isPh] using ih args h
      | phs =>
          cases args with
          | nil => simp [renderToks, Except.isOk, Except.toBool] at h
          | cons a as =>
              simp only [renderToks, isOk_map] at h
              simpa [List.countP_cons, Tok.isPh] using ih as h
      | phd =>
          cases args with
          | nil => simp [renderToks, Except.isOk, Except.toBool] at h
          | cons a as =>
              cases a with
              | str s => simp [renderToks, Except.isOk, Except.toBool] at h
              | int n =>
                  simp only [renderToks, isOk_map] at h
                  simpa [List.countP_cons, Tok.isPh] using ih as h

theorem renderToks_error_dformat (ts : List Tok) (args : List PyVal)
    (e : String) (hc : ts.countP Tok.isPh = args.length)
    (h : renderToks ts args = Except.error e) : e = dFormatErrMsg := by
  induction ts generalizing args e with
  | nil =>
      cases args with
      | nil => simp [renderToks] at h
      | cons a as => simp at hc
  | cons t ts ih =>
      cases t with
      | lit c =>
          simp only [renderToks] at h
          cases hr : renderToks ts args with
          | error e2 =>
              rw [hr] at h
              simp [Except.map] at h
              rw [← h]
              exact ih args e2 (by simpa [List.countP_cons, Tok.isPh] using hc) hr
          | ok r => rw [hr] at h; simp [Except.map] at h
      | phs =>
          cases args with
          | nil => simp [List.countP_cons, Tok.isPh] at hc
          | cons a as =>
              simp only [renderToks] at h
              cases hr : renderToks ts as with
              | error e2 =>
                  rw [hr] at h
                  simp [Except.map] at h
                  rw [← h]
                  exact ih as e2 (by simpa [List.countP_cons, Tok.isPh] using hc) hr
              | ok r => rw [hr] at h; simp [Except.map] at h
      | phd =>
          cases args with
          | nil => simp [List.countP_cons, Tok.isPh] at hc
          | cons a as =>
              cases a with
              | str s =>
                  simp only [renderToks] at h
                  simp at h
                  exact h.symm
              | int n =>
                  simp only [renderToks] at h
                  cases hr : renderToks ts as with
                  | error e2 =>
                      rw [hr] at h
                      simp [Except.map] at h
                      rw [← h]
                      exact ih as e2 (by simpa [List.countP_cons, Tok.isPh] using hc) hr
                  | ok r => rw [hr] at h; simp [Except.map] at h

theorem pyFormat_mismatch_fails (template : String) (args : List PyVal)
    (hne : countPlaceholders template ≠ some args.length) :
    (pyFormat template args).isOk = false := by
  unfold pyFormat
  cases hp : parseTemplate template.data with
  | none => simp [Except.isOk, Except.toBool]
  | some ts =>
      have hcp : countPlaceholders template = some (ts.countP Tok.isPh) := by
        unfold countPlaceholders
        rw [hp]
        rfl
      simp only [isOk_map]
      cases hok : (renderToks ts args).isOk with
      | false => rfl
      | true =>
          exact absurd
            (hcp.trans (congrArg some (renderToks_ok_counts ts args hok))) hne

theorem pyFormat_agree_error (template : String) (args : List PyVal)
    (e : String) (hc : countPlaceholders template = some args.length)
    (h : pyFormat template args = Except.error e) : e = dFormatErrMsg := by
  unfold pyFormat at h
  unfold countPlaceholders at hc
  cases hp : parseTemplate template.data with
  | none => rw [hp] at hc; simp at hc
  | some ts =>
      rw [hp] at hc h
      simp at hc
      simp only [] at h
      cases hr : renderToks ts args with
      | error e2 =>
          rw [hr] at h
          simp [Except.map] at h
          rw [← h]
          exact renderToks_error_dformat ts args e2 hc hr
      | ok r => rw [hr] at h; simp [Except.map] at h

/-- C6 counterexample: the grabber stores the glob matches exactly as the
glob function produced them; with matches arriving as /b then /a the stored
sequence is /b, /a, which is not the sorted sequence /a, /b even though /a
sorts before /b. -/
theorem dg_sorted_counterexample :
    dgAggregate (fun _ => ["/b", "/a"])
        (DGInputs.mk "*" none none (fun _ => none))
      = Except.ok (Resolved.seq ["/b", "/a"])
    ∧ Resolved.seq ["/b", "/a"] ≠ Resolved.seq ["/a", "/b"] :=
  ⟨rfl, by decide⟩

/-- C6 amended: with zero collected arguments the template string is used
verbatim as the glob pattern, otherwise the formatted template is used, and
the stored result is the match list exactly as the glob expansion produced
it (a singleton collapsing to the single path), with no sorting. -/
theorem dg_aggregate_glob_order (fsGlob : String → List String)
    (inp : DGInputs) :
    (dgArgs inp = [] →
        dgAggregate fsGlob inp
          = Except.ok (list_to_filename (fsGlob inp.file_template)))
    ∧ (∀ t, pyFormat inp.file_template (dgArgs inp) = Except.ok t →
        dgArgs inp ≠ [] →
        dgAggregate fsGlob inp = Except.ok (list_to_filename (fsGlob t))) := by
  constructor
  · intro h
    simp [dgAggregate, h, Except.map]
  · intro t ht h
    have hne : (dgArgs inp).isEmpty = false := by
      cases hq : dgArgs inp with
      | nil => exact absurd hq h
      | cons a as => rfl
    simp [dgAggregate, hne, ht, Except.map]

/-- C6 witness: a zero-argument grabber passes its template verbatim and
stores the single match. -/
theorem dg_aggregate_glob_order_witness :
    dgAggregate (fun _ => ["/x"]) (DGInputs.mk "*" none none (fun _ => none))
      = Except.ok (list_to_filename ((fun _ : String => ["/x"]) "*")) :=
  (dg_aggregate_glob_order (fun _ => ["/x"])
    (DGInputs.mk "*" none none (fun _ => none))).1 rfl

/-- C7 counterexample: the template has one placeholder and zero arguments
are supplied, a count mismatch, yet aggregation succeeds because the
template is never formatted when the argument list is empty. -/
theorem dg_mismatch_counterexample :
    countPlaceholders "%s.nii" = some 1
    ∧ dgArgs (DGInputs.mk "%s.nii" none none (fun _ => none)) = []
    ∧ dgAggregate (fun _ => [])
        (DGInputs.mk "%s.nii" none none (fun _ => none))
      = Except.ok (Resolved.seq []) :=
  ⟨rfl, rfl, rfl⟩

/-- C7 amended: when at least one argument is collected, a placeholder and
argument count mismatch makes aggregation fail; when the counts agree it
never fails for that reason, any remaining failure being the decimal
conversion TypeError and neither of the two count-mismatch errors; when
zero arguments are collected the template is used verbatim and aggregation
always succeeds, whatever the placeholder count and whatever the glob
matches, including none. -/
theorem dg_mismatch_amended (fsGlob : String → List String) (inp : DGInputs) :
    (dgArgs inp ≠ [] →
        countPlaceholders inp.file_template ≠ some (dgArgs inp).length →
        (dgAggregate fsGlob inp).isOk = false)
    ∧ (dgArgs inp ≠ [] →
        countPlaceholders inp.file_template = some (dgArgs inp).length →
        ∀ e, dgAggregate fsGlob inp = Except.error e →
          e = dFormatErrMsg ∧ e ≠ notEnoughArgsMsg ∧ e ≠ notAllConvertedMsg)
    ∧ (dgArgs inp = [] → (dgAggregate fsGlob inp).isOk = true) := by
  have hagg : (dgArgs inp).isEmpty = false →
      dgAggregate fsGlob inp
        = (pyFormat inp.file_template (dgArgs inp)).map
            (fun t => list_to_filename (fsGlob t)) := by
    intro h
    simp [dgAggregate, h]
  refine ⟨?_, ?_, ?_⟩
  · intro h hne
    have hne2 : (dgArgs inp).isEmpty = false := by
      cases hq : dgArgs inp with
      | nil => exact absurd hq h
      | cons a as => rfl
    rw [hagg hne2, isOk_map]
    exact pyFormat_mismatch_fails inp.file_template (dgArgs inp) hne
  · intro h hc e he
    have hne2 : (dgArgs inp).isEmpty = false := by
      cases hq : dgArgs inp with
      | nil => exact absurd hq h
      | cons a as => rfl
    rw [hagg hne2] at he
    have hpe : pyFormat inp.file_template (dgArgs inp) = Except.error e := by
      cases hp : pyFormat inp.file_template (dgArgs inp) with
      | error e2 =>
          rw [hp] at he
          simp [Except.map] at he
          rw [he]
      | ok t => rw [hp] at he; simp [Except.map] at he
    have hde := pyFormat_agree_error inp.file_template (dgArgs inp) e hc hpe
    refine ⟨hde, ?_, ?_⟩ <;> rw [hde] <;> decide
  · intro h
    simp [dgAggregate, h, Except.map, Except.isOk, Except.toBool]

/-- C7 witness: a template with two placeholders and one supplied argument
mismatches in count and fails, while a decimal template given a string
argument with agreeing counts fails with the conversion error, which is not
a count-mismatch error. -/
theorem dg_mismatch_amended_witness :
    (dgAggregate (fun _ => [])
        (DGInputs.mk "%s%s" (some [PyVal.str "x"]) none (fun _ => none))).isOk
      = false
    ∧ ("%d format: a number is required, not str" = dFormatErrMsg
        ∧ "%d format: a number is required, not str" ≠ notEnoughArgsMsg
        ∧ "%d format: a number is required, not str" ≠ notAllConvertedMsg) :=
  ⟨(dg_mismatch_amended (fun _ => [])
      (DGInputs.mk "%s%s" (some [PyVal.str "x"]) none (fun _ => none))).1
      (by decide) (by decide),
   (dg_mismatch_amended (fun _ => [])
      (DGInputs.mk "%d" (some [PyVal.str "x"]) none (fun _ => none))).2.1
      (by decide) (by decide) "%d format: a number is required, not str" rfl⟩

theorem dgArgsLoop_eq (named : String → Option PyVal) (acc : List PyVal)
    (ns : List String) :
    dgArgsLoop named acc ns
      = acc ++ ns.filterMap (fun n =>
          match named n with
          | some v => if v.truthy then some v else none
          | none => none) := by
  induction ns generalizing acc with
  | nil => simp [dgArgsLoop]
  | cons n ns ih =>
      cases hv : named n with
      | none => simp [dgArgsLoop, hv, ih]
      | some v =>
          cases ht : v.truthy with
          | true => simp [dgArgsLoop, hv, ht, ih]
          | false => simp [dgArgsLoop, hv, ht, ih]

/-- C10: the argument list applied to the template is the truthy-filtered
projection of the named inputs, in template_argnames order, appended after
the template_argtuple values; falsy named values are silently dropped. -/
theorem dg_falsy_named_omitted (inp : DGInputs) (ns : List String)
    (h : inp.template_argnames = some ns) :
    dgArgs inp = dgTupleArgs inp
      ++ ns.filterMap (fun n =>
          match inp.named n with
          | some v => if v.truthy then some v else none
          | none => none) := by
  unfold dgArgs
  rw [h]
  exact dgArgsLoop_eq inp.named (dgTupleArgs inp) ns

/-- Named-input store used by the C10 witness: a holds an empty string, b a
nonempty string, c the integer zero. -/
def dgExNamed : String → Option PyVal := fun n =>
  if n = "a" then some (PyVal.str "") else
  if n = "b" then some (PyVal.str "x") else
  if n = "c" then some (PyVal.int 0) else none

/-- DataGrabber inputs used by the C10 witness. -/
def dgExInputs : DGInputs :=
  DGInputs.mk "%s/%s" (some [PyVal.str "t"]) (some ["a", "b", "c"]) dgExNamed

/-- C10 witness: with a falsy a and c and a truthy b, only b survives, after
the tuple argument. -/
theorem dg_falsy_named_omitted_witness :
    dgArgs dgExInputs = dgTupleArgs dgExInputs
      ++ ["a", "b", "c"].filterMap (fun n =>
          match dgExInputs.named n with
          | some v => if v.truthy then some v else none
          | none => none) :=
  dg_falsy_named_omitted dgExInputs ["a", "b", "c"] rfl

/-! DataSource: aggregation over the subject_info run identifiers, io.py
lines 114-147. -/

/-- Inputs of DataSource, io.py lines 84-90; subject_info maps a subject id
to a list of (run identifier list, output field name) pairs. -/
structure DSInputs where
  base_directory : Option String
  subject_template : Option String
  file_template : String
  subject_id : String
  subject_directory : Option String
  subject_info : Option (List (String × List (List PyVal × String)))

/-- Subject directory resolution of DataSource.aggregate_outputs, io.py
lines 117-126: the explicit directory, else the template applied to the
subject id (or the id itself) joined under base_directory; a missing
base_directory is the Python TypeError of joining with None. -/
def dsSubjdir (inp : DSInputs) : Except String String :=
  match inp.subject_directory with
  | some d => Except.ok d
  | none =>
      match (match inp.subject_template with
             | some t => pyFormat t [PyVal.str inp.subject_id]
             | none => Except.ok inp.subject_id) with
      | Except.error e => Except.error e
      | Except.ok rel =>
          match inp.base_directory with
          | none => Except.error "TypeError: base_directory is None"
          | some b => Except.ok (osPathJoin b rel)

/-- Inner loop of DataSource.aggregate_outputs over the run identifiers of
one output field, io.py lines 137-144: format the file template with the
identifier, glob the absolute path, raise when nothing matched, and
accumulate the matches. -/
def dsRuns (fsGlob : String → List String) (cwd subjdir ftemplate : String) :
    List PyVal → Except String (List String)
  | [] => Except.ok []
  | i :: rest =>
      match pyFormat ftemplate [i] with
      | Except.error e => Except.error e
      | Except.ok files =>
          let path := pyAbspath cwd (osPathJoin subjdir files)
          if (fsGlob path).isEmpty then
            Except.error ("Unable to find file: " ++ path)
          else
            match dsRuns fsGlob cwd subjdir ftemplate rest with
            | Except.error e => Except.error e
            | Except.ok more => Except.ok (fsGlob path ++ more)

/-- Outer loop of DataSource.aggregate_outputs over the output fields,
io.py lines 135-146: each field stores its accumulated matches, collapsed
by list_to_filename when the identifier list is nonempty. -/
def dsFields (fsGlob : String → List String) (cwd subjdir ftemplate : String) :
    List (List PyVal × String) → Except String (List (String × Resolved))
  | [] => Except.ok []
  | (idx, fieldname) :: rest =>
      match dsRuns fsGlob cwd subjdir ftemplate idx with
      | Except.error e => Except.error e
      | Except.ok files =>
          let v := if idx.isEmpty then Resolved.seq []
                   else list_to_filename files
          match dsFields fsGlob cwd subjdir ftemplate rest with
          | Except.error e => Except.error e
          | Except.ok more => Except.ok ((fieldname, v) :: more)

/-- DataSource.aggregate_outputs, io.py lines 114-147: resolve the subject
directory, require subject_info and its entry for the subject id, then
resolve every output field. -/
def dsAggregate (fsGlob : String → List String) (cwd : String)
    (inp : DSInputs) : Except String (List (String × Resolved)) :=
  match dsSubjdir inp with
  | Except.error e => Except.error e
  | Except.ok subjdir =>
      match inp.subject_info with
      | none => Except.error "Subject info not provided"
      | some info =>
          match info.lookup inp.subject_id with
          | none =>
              Except.error ("Key [" ++ inp.subject_id
                ++ "] does not exist in subject_info dictionary")
          | some entries => dsFields fsGlob cwd subjdir inp.file_template entries

theorem dsRuns_error_unable (fsGlob : String → List String)
    (cwd subjdir ftemplate : String) (idx : List PyVal)
    (hwf : ∀ i ∈ idx, (pyFormat ftemplate [i]).isOk = true) (e : String)
    (h : dsRuns fsGlob cwd subjdir ftemplate idx = Except.error e) :
    ∃ p, e = "Unable to find file: " ++ p := by
  induction idx with
  | nil => simp [dsRuns] at h
  | cons i rest ih =>
      have hfmt := hwf i (by simp)
      cases hf : pyFormat ftemplate [i] with
      | error e2 => rw [hf] at hfmt; simp [Except.isOk, Except.toBool] at hfmt
      | ok files =>
          rw [dsRuns, hf] at h
          by_cases hglob :
              (fsGlob (pyAbspath cwd (osPathJoin subjdir files))).isEmpty = true
          · simp [hglob] at h
            exact ⟨pyAbspath cwd (osPathJoin subjdir files), h.symm⟩
          · simp [hglob] at h
            cases hr : dsRuns fsGlob cwd subjdir ftemplate rest with
            | error e3 =>
                rw [hr] at h
                simp at h
                rw [h] at hr
                exact ih (fun x hx => hwf x (by simp [hx])) hr
            | ok more => rw [hr] at h; simp at h

theorem dsRuns_fails_on_empty (fsGlob : String → List String)
    (cwd subjdir ftemplate : String) (idx : List PyVal)
    (hmiss : ∃ i ∈ idx, ∃ files, pyFormat ftemplate [i] = Except.ok files
        ∧ fsGlob (pyAbspath cwd (osPathJoin subjdir files)) = []) :
    ∃ e, dsRuns fsGlob cwd subjdir ftemplate idx = Except.error e := by
  induction idx with
  | nil => simp at hmiss
  | cons i rest ih =>
      cases hf : pyFormat ftemplate [i] with
      | error e2 => exact ⟨e2, by rw [dsRuns, hf]⟩
      | ok files =>
          by_cases hglob :
              (fsGlob (pyAbspath cwd (osPathJoin subjdir files))).isEmpty = true
          · exact ⟨"Unable to find file: " ++ pyAbspath cwd (osPathJoin subjdir files),
              by rw [dsRuns, hf]; simp [hglob]⟩
          · have hmiss2 : ∃ j ∈ rest, ∃ fl,
                pyFormat ftemplate [j] = Except.ok fl
                ∧ fsGlob (pyAbspath cwd (osPathJoin subjdir fl)) = [] := by
              rcases hmiss with ⟨j, hj, fl, hfl, hfe⟩
              rcases List.mem_cons.mp hj with rfl | hj2
              · rw [hf] at hfl
                have hfl2 : files = fl := by simpa using hfl
                rw [← hfl2] at hfe
                exact absurd (by rw [hfe]; rfl) hglob
              · exact ⟨j, hj2, fl, hfl, hfe⟩
            rcases ih hmiss2 with ⟨e3, he3⟩
            exact ⟨e3, by rw [dsRuns, hf]; simp [hglob, he3]⟩

theorem dsFields_fails (fsGlob : String → List String)
    (cwd subjdir ftemplate : String) (entries : List (List PyVal × String))
    (hwf : ∀ e ∈ entries, ∀ i ∈ e.1, (pyFormat ftemplate [i]).isOk = true)
    (hmiss : ∃ e ∈ entries, ∃ i ∈ e.1, ∃ files,
        pyFormat ftemplate [i] = Except.ok files
        ∧ fsGlob (pyAbspath cwd (osPathJoin subjdir files)) = []) :
    ∃ p, dsFields fsGlob cwd subjdir ftemplate entries
      = Except.error ("Unable to find file: " ++ p) := by
  induction entries with
  | nil => simp at hmiss
  | cons entry rest ih =>
      obtain ⟨idx, fieldname⟩ := entry
      cases hr : dsRuns fsGlob cwd subjdir ftemplate idx with
      | error e =>
          rcases dsRuns_error_unable fsGlob cwd subjdir ftemplate idx
              (fun i hi => hwf (idx, fieldname) (by simp) i hi) e hr with ⟨p, hp⟩
          exact ⟨p, by rw [dsFields]; simp [hr, hp]⟩
      | ok files =>
          have hmiss2 : ∃ e ∈ rest, ∃ i ∈ e.1, ∃ fl,
              pyFormat ftemplate [i] = Except.ok fl
              ∧ fsGlob (pyAbspath cwd (osPathJoin subjdir fl)) = [] := by
            rcases hmiss with ⟨e2, he2, i, hi, fl, hfl, hfe⟩
            rcases List.mem_cons.mp he2 with rfl | he3
            · exfalso
              rcases dsRuns_fails_on_empty fsGlob cwd subjdir ftemplate idx
                  ⟨i, hi, fl, hfl, hfe⟩ with ⟨e4, he4⟩
              rw [hr] at he4
              exact Except.noConfusion he4
            · exact ⟨e2, he3, i, hi, fl, hfl, hfe⟩
          rcases ih (fun e2 he2 => hwf e2 (by simp [he2])) hmiss2 with ⟨p, hp⟩
          exact ⟨p, by rw [dsFields]; simp [hr, hp]⟩

/-- C8: whenever the subject directory and subject_info resolve and every
run identifier formats, a glob that matches zero files for any run
identifier of any output field makes DataSource aggregation fail with the
not-found error, in contrast to the FreeSurfer aggregator. -/
theorem ds_aggregate_requires_match (fsGlob : String → List String)
    (cwd : String) (inp : DSInputs) (subjdir : String)
    (info : List (String × List (List PyVal × String)))
    (entries : List (List PyVal × String))
    (hdir : dsSubjdir inp = Except.ok subjdir)
    (hinfo : inp.subject_info = some info)
    (hentries : info.lookup inp.subject_id = some entries)
    (hwf : ∀ e ∈ entries, ∀ i ∈ e.1,
        (pyFormat inp.file_template [i]).isOk = true)
    (hmiss : ∃ e ∈ entries, ∃ i ∈ e.1, ∃ files,
        pyFormat inp.file_template [i] = Except.ok files
        ∧ fsGlob (pyAbspath cwd (osPathJoin subjdir files)) = []) :
    ∃ p, dsAggregate fsGlob cwd inp
      = Except.error ("Unable to find file: " ++ p) := by
  rcases dsFields_fails fsGlob cwd subjdir inp.file_template entries hwf hmiss
    with ⟨p, hp⟩
  exact ⟨p, by rw [dsAggregate]; simp [hdir, hinfo, hentries, hp]⟩

/-- C8 witness: subject s1 requests run f3 of field func, the glob matches
nothing, and aggregation fails with the not-found error. -/
theorem ds_aggregate_requires_match_witness :
    ∃ p, dsAggregate (fun _ => []) "/cwd"
        (DSInputs.mk (some "/b") none "%s.nii" "s1" (some "/b/s1")
          (some [("s1", [([PyVal.str "f3"], "func")])]))
      = Except.error ("Unable to find file: " ++ p) :=
  ds_aggregate_requires_match (fun _ => []) "/cwd"
    (DSInputs.mk (some "/b") none "%s.nii" "s1" (some "/b/s1")
      (some [("s1", [([PyVal.str "f3"], "func")])]))
    "/b/s1" [("s1", [([PyVal.str "f3"], "func")])]
    [([PyVal.str "f3"], "func")] rfl rfl rfl
    (by decide)
    ⟨([PyVal.str "f3"], "func"), by decide, PyVal.str "f3", by decide,
      "f3.nii", rfl, rfl⟩

/-! DataSink: nested destination path construction, io.py lines 238-242.
The loop splits the dotted key on periods, skips any segment whose first
character is the at-sign marker, and joins the remaining segments; indexing
the first character of an empty segment is a Python IndexError. -/

/-- Model of the Python string method split applied with a period
separator: consecutive separators and leading or trailing separators
produce empty segments, and the empty string splits to one empty
segment. -/
def pySplitDot : List Char → List String
  | [] => [""]
  | c :: rest =>
      if c = '.' then "" :: pySplitDot rest
      else
        match pySplitDot rest with
        | [] => [String.mk [c]]
        | s :: ss => String.mk (c :: s.data) :: ss

/-- Loop body of DataSink.run over the dot-separated segments, io.py lines
239-242: d with first character at-sign is skipped, any other d extends the
path; d of length zero raises IndexError at d[0]. -/
def buildNested (outdir : String) : List String → Except String String
  | [] => Except.ok outdir
  | d :: rest =>
      match d.data with
      | [] => Except.error "IndexError: string index out of range"
      | c :: _ =>
          if c = '@' then buildNested outdir rest
          else buildNested (osPathJoin outdir d) rest

/-- Nested destination directory computed by DataSink.run for one dotted
key, io.py lines 238-242. -/
def depositPath (outdir key : String) : Except String String :=
  buildNested outdir (pySplitDot key.data)

/-- Path the claim describes: the join of exactly the dot-separated
segments that do not begin with the at-sign marker. -/
def specNestedPath (outdir key : String) : String :=
  (pySplitDot key.data).foldl
    (fun acc d => if d.data.head? = some '@' then acc else osPathJoin acc d)
    outdir

/-- C9 counterexample: the key a..b has an empty middle segment, so the
code raises IndexError instead of building the directory path of the
non-marker segments. -/
theorem datasink_nested_counterexample :
    depositPath "/out" "a..b"
      = Except.error "IndexError: string index out of range"
    ∧ depositPath "/out" "a..b" ≠ Except.ok (specNestedPath "/out" "a..b") := by
  constructor
  · rfl
  · intro h
    rw [show depositPath "/out" "a..b"
        = Except.error "IndexError: string index out of range" from rfl] at h
    exact Except.noConfusion h

theorem buildNested_eq_fold (segs : List String) (outdir : String)
    (h : ∀ s ∈ segs, s ≠ "") :
    buildNested outdir segs
      = Except.ok (segs.foldl
          (fun acc d => if d.data.head? = some '@' then acc else osPathJoin acc d)
          outdir) := by
  induction segs generalizing outdir with
  | nil => rfl
  | cons d rest ih =>
      have hd : d ≠ "" := h d (by simp)
      have ih1 := ih outdir (fun s hs => h s (by simp [hs]))
      have ih2 := ih (osPathJoin outdir d) (fun s hs => h s (by simp [hs]))
      cases hcd : d.data with
      | nil => exact absurd (String.ext hcd) hd
      | cons c cs =>
          by_cases hc : c = '@'
          · simp [buildNested, hcd, hc, ih1]
          · simp [buildNested, hcd, hc, ih2]

/-- C9 amended: for every dotted key whose segments are all nonempty, the
code builds exactly the join of the segments that do not begin with the
at-sign marker, the marker segments at any position creating no directory
level; a key with an empty segment instead raises IndexError. -/
theorem datasink_nested_path_amended (outdir key : String)
    (h : ∀ s ∈ pySplitDot key.data, s ≠ "") :
    depositPath outdir key = Except.ok (specNestedPath outdir key) :=
  buildNested_eq_fold (pySplitDot key.data) outdir h

/-- C9 witness: depositing under key a.@skip.b creates only the non-marker
levels a and b. -/
theorem datasink_nested_path_amended_witness :
    depositPath "/out" "a.@skip.b" = Except.ok (specNestedPath "/out" "a.@skip.b") :=
  datasink_nested_path_amended "/out" "a.@skip.b" (by decide)

end NipypeIO
